import Mathlib

/-!
Verification development for the B.E.L.L.A. content-calendar generator.

The definitions below are a shallow embedding of the Python sources:
`fallback_content.py`, `ssds_ai.py`, `content_diversity.py`, `main.py`,
`ultra_safe_main.py`, `deployment_main.py` and `crash_prevention.py`.
Python strings are Lean `String`s (`String.data : List Char`), Python list
indexing `l[i]` that can raise `IndexError` is `List.get?` (with `none`
modelling the raised exception), and the external OpenAI / network calls are
modelled by an oracle parameter `Option String` (`none` = exception or empty
response, `some c` = a response whose `message.content` is `c`).
-/

namespace Bella

/-! ### Python string primitives -/

/-- Python `s.split(sep)` for a one-character separator, accumulator form. -/
def splitChAux (sep : Char) : List Char → List Char → List String
  | [], acc => [String.mk acc.reverse]
  | c :: cs, acc =>
    if c = sep then String.mk acc.reverse :: splitChAux sep cs []
    else splitChAux sep cs (c :: acc)

/-- Python `s.split(sep)` for a one-character separator (`"".split` is `[""]`). -/
def splitCh (sep : Char) (s : String) : List String :=
  splitChAux sep s.data []

/-- Python `s.split("|")`. -/
def splitPipe (s : String) : List String :=
  splitCh '|' s

/-- Number of pipe-delimited fields of a string, i.e. `len(s.split("|"))`. -/
def numFields (s : String) : Nat :=
  (splitPipe s).length

/-- Python `s.strip()`: drop leading and trailing whitespace. -/
def pyStrip (s : String) : String :=
  String.mk (((s.data.dropWhile Char.isWhitespace).reverse.dropWhile
    Char.isWhitespace).reverse)

/-- Python `s.replace(' ', '')`: remove every space character. -/
def removeSpaces (s : String) : String :=
  String.mk (s.data.filter (fun c => c ≠ ' '))

/-- Python `s.lower()` (basic-latin case mapping, as in the sources). -/
def pyLower (s : String) : String :=
  String.mk (s.data.map Char.toLower)

/-- Helper for Python `s.title()`: uppercase a letter that follows a
non-letter, lowercase a letter that follows a letter. -/
def titleAux : Bool → List Char → List Char
  | _, [] => []
  | prevAlpha, c :: cs =>
    (if c.isAlpha then (if prevAlpha then c.toLower else c.toUpper) else c)
      :: titleAux c.isAlpha cs

/-- Python `s.title()`. -/
def pyTitle (s : String) : String :=
  String.mk (titleAux false s.data)

/-- Python `s[:n]`. -/
def pyTake (n : Nat) (s : String) : String :=
  String.mk (s.data.take n)

/-- Bool prefix test on char lists. -/
def isPrefixCh : List Char → List Char → Bool
  | [], _ => true
  | _ :: _, [] => false
  | a :: as, b :: bs => a = b && isPrefixCh as bs

/-- Bool substring search on char lists. -/
def containsSubAux (needle : List Char) : List Char → Bool
  | [] => isPrefixCh needle []
  | h :: t => isPrefixCh needle (h :: t) || containsSubAux needle t

/-- Python `needle in hay` (substring containment). -/
def pyContains (hay needle : String) : Bool :=
  containsSubAux needle.data hay.data

/-- Python `sep.join(l)` / the constant separators of the generators'
f-strings, right-associated. -/
def joinSep (sep : String) : List String → String
  | [] => ""
  | [a] => a
  | a :: b :: t => a ++ (sep ++ joinSep sep (b :: t))

/-! ### Pipe-freedom: the key side condition for field counting -/

/-- A string contains no `'|'` character. -/
def noPipe (s : String) : Prop :=
  '|' ∉ s.data

instance (s : String) : Decidable (noPipe s) :=
  inferInstanceAs (Decidable ('|' ∉ s.data))

/-! ### `fallback_content.py`: `get_fallback_content`

Python list indexing `l[i]` is modelled with `List.get?`; an out-of-range
index (Python `IndexError`) makes the whole function return `none`.  The
`% len` expressions are transcribed exactly as in the source; the only index
that is not reduced modulo its own list length is the one into the 8-element
`base_visuals` list, which is indexed by `(day - 1) % len(base_activities)`. -/

/-- The beauty-word test of `fallback_content.py` / `content_diversity.py`:
`any(w in niche.lower() for w in ['hair', 'nail', ...])`. -/
def isBeautyNiche (niche : String) : Bool :=
  ["hair", "nail", "beauty", "salon", "spa", "microblading", "lash",
    "brow"].any (fun w => pyContains (pyLower niche) w)

def base_activities (niche : String) : List String :=
  [pyTitle niche ++ " showcase", pyTitle niche ++ " tutorial",
   pyTitle niche ++ " process video", "Client " ++ niche ++ " experience",
   "Behind-the-scenes " ++ niche, pyTitle niche ++ " transformation",
   "Professional " ++ niche ++ " work", pyTitle niche ++ " techniques",
   "Quality " ++ niche ++ " service", pyTitle niche ++ " consultation"]

def base_scripts (niche city : String) : List String :=
  ["Experience exceptional " ++ niche ++ " quality and service",
   "See our professional " ++ niche ++ " expertise in action",
   "Your " ++ niche ++ " goals are our priority in " ++ city,
   "Professional " ++ niche ++ " services that exceed expectations",
   "Behind the scenes of our " ++ niche ++ " process",
   "Transform your " ++ niche ++ " experience with our experts",
   "Quality " ++ niche ++ " services you can trust",
   "Watch our " ++ niche ++ " professionals at work",
   "Exceptional " ++ niche ++ " results for " ++ city ++ " clients",
   "Your satisfaction is our " ++ niche ++ " mission"]

def base_visuals (niche : String) : List String :=
  ["High-quality " ++ niche ++ " photography",
   "Professional " ++ niche ++ " video content",
   "Before and after " ++ niche ++ " results", "Process documentation",
   "Client satisfaction moments", "Detail shots of " ++ niche ++ " work",
   "Professional workspace", "Quality " ++ niche ++ " equipment"]

def base_captions (niche city : String) : List String :=
  ["Ready for exceptional " ++ niche ++ " service in " ++ city ++
     "? We deliver quality results every time!",
   "Your " ++ niche ++ " experience matters to us. Book your " ++ city ++
     " appointment today!",
   "Excellence in " ++ niche ++ " services, right here in " ++ city ++
     ". Experience the difference!",
   "Professional " ++ niche ++
     " solutions tailored for you. Welcome to quality service!",
   "Transform your " ++ niche ++ " needs with our expert team in " ++ city ++ "!"]

def base_hashtags (niche city : String) : List String :=
  let nicheClean := pyTitle (removeSpaces niche)
  let cityClean := pyTitle (removeSpaces city)
  ["#" ++ nicheClean, "#" ++ cityClean ++ nicheClean,
   "#Professional" ++ nicheClean, "#" ++ cityClean ++ "Business"]

def fallback_times : List String :=
  ["Morning (9-11am)", "Afternoon (2-4pm)", "Evening (6-8pm)",
   "Peak hours (10am-2pm)", "Weekend mornings", "Lunch break (12-1pm)",
   "After work (5-7pm)", "Early evening"]

def fallback_ctas : List String :=
  ["Book your appointment today!", "DM us to get started!",
   "Call now to schedule!", "Visit our website to book!",
   "Limited slots available!", "Book your consultation!",
   "Transform today!", "Schedule your session!"]

/-- The beauty-branch prompt of `get_fallback_content`. -/
def fallback_prompt_beauty (niche city : String) : String :=
  "Professional " ++ niche ++ " salon interior in " ++ city ++
    " with modern aesthetic, natural lighting, premium equipment, and \x27@salonsuitedigitalstudio\x27 subtly visible on signage, reflection, or background element"

/-- The non-beauty-branch prompt of `get_fallback_content`. -/
def fallback_prompt_other (niche city : String) : String :=
  "Professional " ++ niche ++ " business interior in " ++ city ++
    " with modern aesthetic, natural lighting, quality setup, and \x27@salonsuitedigitalstudio\x27 subtly visible on signage, reflection, or background element"

/-- Beauty-branch `location_hashtags` (leading space as in the source). -/
def location_hashtags_beauty (niche city : String) : String :=
  " #" ++ removeSpaces city ++ "Salon #" ++ removeSpaces city ++
    "Beauty #Local" ++ pyTitle (removeSpaces niche)

/-- Non-beauty-branch `location_hashtags`. -/
def location_hashtags_other (niche city : String) : String :=
  " #" ++ removeSpaces city ++ "Business #" ++ pyTitle (removeSpaces city) ++
    pyTitle (removeSpaces niche) ++ " #Local" ++ pyTitle (removeSpaces niche)

/-- `get_fallback_content(niche, city, day)` from `fallback_content.py`.
Returns `none` when a list index is out of range (Python `IndexError`):
`base_visuals` has 8 entries but is indexed by `(day - 1) % 10`. -/
def get_fallback_content (niche city : String) (day : Nat) : Option String :=
  let dayIndex := (day - 1) % (base_activities niche).length
  match (base_activities niche).get? dayIndex,
      (base_scripts niche city).get? dayIndex,
      (base_visuals niche).get? dayIndex,
      (base_captions niche city).get? (dayIndex % (base_captions niche city).length),
      fallback_times.get? (dayIndex % fallback_times.length),
      fallback_ctas.get? (dayIndex % fallback_ctas.length) with
  | some activity, some script, some visual, some caption, some time, some cta =>
    let hashtags := joinSep " " (base_hashtags niche city) ++ " #" ++
      removeSpaces city ++ "Local"
    let (prompt, locationHashtags) :=
      if isBeautyNiche niche then
        (fallback_prompt_beauty niche city, location_hashtags_beauty niche city)
      else
        (fallback_prompt_other niche city, location_hashtags_other niche city)
    some (joinSep " | " ["Day " ++ Nat.repr day, activity, script, visual,
      caption, hashtags ++ locationHashtags, time, cta, prompt])
  | _, _, _, _, _, _ => none

/-! ### `ssds_ai.py`: `get_live_trends` and `generate_social_post` -/

/-- The hashtag component of the `get_live_trends` lookup table (the audio
component is only used inside the prompt sent to the AI, which the oracle
absorbs). -/
def trends_hashtags (nicheKey : String) : String :=
  let k := pyLower nicheKey
  if k = "hair" then "#HairTransformation #HairGoals #SalonLife #HairTrends #BeautyTok"
  else if k = "nails" then "#NailArt #NailGoals #SalonNails #NailTrends #BeautyVibes"
  else if k = "lashes" then "#LashGoals #LashExtensions #BeautyTrends #EyeLashes #SalonLife"
  else if k = "makeup" then "#MakeupArtist #MakeupGoals #BeautyMakeup #GlamSquad #MakeupTrends"
  else if k = "skincare" then "#SkinCare #GlowUp #HealthySkin #SkinGoals #BeautyRoutine"
  else if k = "eyebrows" then "#BrowGoals #EyebrowShaping #BrowArt #BeautyBrows #SalonBrows"
  else if k = "microblading" then "#Microblading #BrowArt #PermanentMakeup #BeautyProfessional #BrowGoals"
  else if k = "massage" then "#MassageTherapy #SelfCare #Wellness #Relaxation #SpaLife"
  else if k = "fitness" then "#FitnessMotivation #WorkoutGoals #HealthyLifestyle #FitLife #Wellness"
  else if k = "photography" then "#Photography #CreativeProcess #PhotoShoot #ArtisticVision #BehindTheScenes"
  else if k = "consulting" then "#BusinessConsulting #ProfessionalDevelopment #Success #Strategy #Growth"
  else "#SmallBusiness #Entrepreneur #LocalBusiness #Success #Growth"

/-- `primary_niche = niche.split(',')[0].strip() if ',' in niche else niche`. -/
def primary_niche (niche : String) : String :=
  if pyContains niche "," then pyStrip ((splitCh ',' niche).getD 0 "")
  else niche

/-- The "ultimate emergency content" literal of `generate_social_post`,
returned when `get_fallback_content` itself raises. -/
def emergency_post (niche city : String) (day : Nat) : String :=
  joinSep " | " ["Day " ++ Nat.repr day, "Professional Content",
    "Engaging " ++ niche ++ " content", "High-quality visuals",
    "Professional " ++ niche ++ " content for " ++ city,
    trends_hashtags (primary_niche niche), "Peak hours", "Book today",
    "Professional marketing image with @salonsuitedigitalstudio visible"]

/-- `generate_social_post(niche, city, day, previous_posts)` from
`ssds_ai.py`.  `aiContent` is the OpenAI oracle: `none` models an exception
(or a `None` content field) in the enhancement attempt, and `some c` models
a successful response whose `message.content` is `c`.  `previous_posts`
only influences the prompt sent to the AI, so it is absorbed by the oracle.
The fallback content is computed first; if it raises (`none`), the
hard-coded emergency string is returned and the AI is never consulted. -/
def generate_social_post (niche city : String) (day : Nat)
    (aiContent : Option String) : String :=
  match get_fallback_content niche city day with
  | none => emergency_post niche city day
  | some fallbackPost =>
    match aiContent with
    | some c => if c = "" then fallbackPost else pyStrip c
    | none => fallbackPost

/-! ### `content_diversity.py`: `generate_diverse_content` -/

/-- One theme of the `content_themes` dict: its activity and script lists. -/
structure Theme where
  activities : List String
  scripts : List String

def theme_transformation (niche city : String) : Theme where
  activities := ["Amazing Transformation Tuesday", "Makeover Magic",
    "Before & After Reveal", "Client Glow-Up Story", "Confidence Transformation"]
  scripts := ["Watch this incredible " ++ niche ++ " transformation in " ++ city,
    "From ordinary to extraordinary - " ++ niche ++ " magic happens here",
    "This " ++ city ++ " client\x27s transformation will inspire you"]

def theme_education (niche city : String) : Theme where
  activities := ["Tutorial Thursday", "Technique Breakdown", "Pro Tips Friday",
    "Educational Content", "How-To Guide"]
  scripts := ["Learn professional " ++ niche ++ " techniques from our " ++ city ++
      " experts",
    "Master these " ++ niche ++ " tips for amazing results",
    "Behind-the-scenes " ++ niche ++ " education"]

def theme_behind_scenes (niche city : String) : Theme where
  activities := ["Behind the Scenes", "Day in the Life", "Process Video",
    "Studio Tour", "Artist at Work"]
  scripts := ["See what happens behind the scenes at our " ++ city ++ " studio",
    "A day in the life of " ++ niche ++ " professionals",
    "The artistry behind every " ++ niche ++ " service"]

def theme_client_focus (niche city : String) : Theme where
  activities := ["Client Spotlight", "Success Story", "Testimonial Feature",
    "Happy Client Friday", "Client Love"]
  scripts := ["Meet our amazing " ++ city ++ " clients and their " ++ niche ++
      " journey",
    "Nothing makes us happier than satisfied " ++ niche ++ " clients",
    "Client love from the heart of " ++ city]

def theme_trends (niche city : String) : Theme where
  activities := ["Trending Now", "Style Forecast", "What\x27s Hot",
    "Season\x27s Best", "Latest Looks"]
  scripts := ["The hottest " ++ niche ++ " trends taking over " ++ city,
    "Stay ahead with these " ++ niche ++ " style predictions",
    "What\x27s trending in " ++ niche ++ " this season"]

/-- `content_themes[theme_keys[k]]` for `k = day % len(theme_keys)`; the
dict's insertion order is transformation, education, behind_scenes,
client_focus, trends. -/
def content_theme (niche city : String) (k : Nat) : Theme :=
  if k = 0 then theme_transformation niche city
  else if k = 1 then theme_education niche city
  else if k = 2 then theme_behind_scenes niche city
  else if k = 3 then theme_client_focus niche city
  else theme_trends niche city

/-- `content_signature = f"{activity.lower()}_{script[:30].lower()}"`. -/
def mkSignature (activity script : String) : String :=
  pyLower activity ++ "_" ++ pyLower (pyTake 30 script)

/-- The collision-avoidance `while` loop of `generate_diverse_content`:
while the signature is in `used` and `counter < 10`, advance both indices
(mod their list lengths) and retry.  The remaining retry budget
`fuel = 10 - counter` is carried structurally (so `fuel = 0` is exactly the
loop condition `counter < 10` failing).  Returns the final activity index,
script index and counter. -/
def dedupGo (used : List String) (th : Theme) :
    Nat → Nat → Nat → Nat → Nat × Nat × Nat
  | 0, aIdx, sIdx, counter => (aIdx, sIdx, counter)
  | fuel + 1, aIdx, sIdx, counter =>
    if mkSignature (th.activities.getD aIdx "") (th.scripts.getD sIdx "") ∈ used
    then
      dedupGo used th fuel ((aIdx + 1) % th.activities.length)
        ((sIdx + 1) % th.scripts.length) (counter + 1)
    else (aIdx, sIdx, counter)

/-- The loop of `generate_diverse_content` applied at its call site:
the theme is `theme_keys[day % 5]`, the start indices are
`(day - 1) % len(...)`, the counter starts at 0 (budget 10). -/
def dedupResult (niche city : String) (day : Nat) (used : List String) :
    Nat × Nat × Nat :=
  let th := content_theme niche city (day % 5)
  dedupGo used th 10 ((day - 1) % th.activities.length)
    ((day - 1) % th.scripts.length) 0

def diverse_visuals (niche : String) : List String :=
  ["High-quality " ++ niche ++ " photography",
   "Professional " ++ niche ++ " video content",
   "Before and after " ++ niche ++ " shots", "Process documentation",
   "Client reaction captures", "Detail shots of " ++ niche ++ " work",
   "Studio atmosphere photos", "Tool and technique displays"]

def diverse_captions (niche city : String) : List String :=
  ["Ready to elevate your " ++ niche ++ " game in " ++ city ++
     "? We\x27re here to make it happen!",
   "Your " ++ niche ++ " journey starts with the right professionals. Book your " ++
     city ++ " appointment today!",
   "Excellence in " ++ niche ++ " services, right here in " ++ city ++
     ". Experience the difference!",
   "Transform your look, boost your confidence. That\x27s the " ++ niche ++
     " magic we create in " ++ city ++ "!",
   "Professional " ++ niche ++
     " services that exceed expectations. Welcome to your " ++ city ++
     " beauty destination!"]

def diverse_hashtags_sets (niche city : String) : List String :=
  ["#" ++ removeSpaces niche ++ " #" ++ removeSpaces city ++
     "Beauty #Transform #BookNow",
   "#" ++ removeSpaces niche ++ "Goals #" ++ removeSpaces city ++
     "Salon #Professional #BeautyVibes",
   "#" ++ removeSpaces niche ++ "Expert #" ++ removeSpaces city ++
     "Style #Confidence #GlowUp",
   "#" ++ removeSpaces niche ++ "Art #" ++ removeSpaces city ++
     "Beauty #Precision #Results",
   "#" ++ removeSpaces niche ++ "Magic #" ++ removeSpaces city ++
     "Professionals #Excellence #SalonLife"]

def diverse_times : List String :=
  ["Peak hours", "Morning sessions", "Afternoon appointments",
   "Evening slots", "Weekend availability", "Flexible scheduling"]

def diverse_ctas : List String :=
  ["Book your transformation!", "Schedule today!", "Call now!", "DM to book!",
   "Limited availability!", "Transform with us!", "Your appointment awaits!",
   "Book consultation!"]

def diverse_prompt (niche city : String) : String :=
  if isBeautyNiche niche then
    "Professional " ++ niche ++ " salon in " ++ city ++
      ", modern interior design, natural lighting, happy clients, premium equipment, \x27@salonsuitedigitalstudio\x27 subtly visible in background or signage"
  else
    "Professional " ++ niche ++ " business in " ++ city ++
      ", modern interior design, natural lighting, satisfied customers, quality equipment, \x27@salonsuitedigitalstudio\x27 subtly visible in background or signage"

/-- `generate_diverse_content(niche, city, day, used_content)` from
`content_diversity.py`.  All non-theme selections use `day % len`, the
theme selections use `(day - 1) % len` (possibly advanced by the
collision-avoidance loop). -/
def generate_diverse_content (niche city : String) (day : Nat)
    (used : List String) : String :=
  let th := content_theme niche city (day % 5)
  let r := dedupResult niche city day used
  let activity := th.activities.getD r.1 ""
  let script := th.scripts.getD r.2.1 ""
  let visuals := diverse_visuals niche
  let captions := diverse_captions niche city
  let hashtagsSets := diverse_hashtags_sets niche city
  joinSep " | " ["Day " ++ Nat.repr day, activity, script,
    visuals.getD (day % visuals.length) "",
    captions.getD (day % captions.length) "",
    hashtagsSets.getD (day % hashtagsSets.length) "",
    diverse_times.getD (day % diverse_times.length) "",
    diverse_ctas.getD (day % diverse_ctas.length) "",
    diverse_prompt niche city]

/-! ### `main.py`: the `/generate` request handler -/

/-- A structured calendar row, as assembled by `main.py` (its dict keys Day,
Activity, Script, Visual, Caption, Hashtags, Time, CTA, Prompt). -/
structure CalendarEntry where
  day : String
  activity : String
  script : String
  visual : String
  caption : String
  hashtags : String
  time : String
  cta : String
  prompt : String
deriving DecidableEq

/-- `niche.split(',')[0].replace(' ', '')`, used in the in-handler hashtags. -/
def niche_tag (niche : String) : String :=
  removeSpaces ((splitCh ',' niche).getD 0 "")

def main_activities : List String :=
  ["Behind the Scenes", "Client Testimonial", "Before & After",
   "Educational Tip", "Team Spotlight", "Product Feature", "Service Highlight"]

def main_scripts (niche city : String) : List String :=
  ["See what makes our " ++ niche ++ " special in " ++ city,
   "Happy clients are our priority in " ++ city,
   "Professional " ++ niche ++ " services you can trust in " ++ city,
   "Quality " ++ niche ++ " experience in " ++ city,
   "Your local " ++ niche ++ " experts in " ++ city,
   "Excellence in " ++ niche ++ " services in " ++ city,
   "Transform your look with our " ++ niche ++ " in " ++ city]

def main_times : List String :=
  ["Morning (9-11am)", "Afternoon (2-4pm)", "Evening (6-8pm)", "Peak hours",
   "Lunch break", "Weekend"]

def main_ctas : List String :=
  ["Book now", "Call today", "DM us", "Visit our website",
   "Schedule consultation", "Get started"]

/-- The "safe predefined content" built inside the handler loop of `main.py`
when the AI path produced nothing usable. -/
def template_post (niche city : String) (day : Nat) : String :=
  let activity := main_activities.getD ((day - 1) % main_activities.length) ""
  let scripts := main_scripts niche city
  let script := scripts.getD ((day - 1) % scripts.length) ""
  let timeSlot := main_times.getD ((day - 1) % main_times.length) ""
  let cta := main_ctas.getD ((day - 1) % main_ctas.length) ""
  joinSep " | " ["Day " ++ Nat.repr day, activity, script,
    "Professional " ++ niche ++ " content",
    script ++ " Book your appointment today!",
    "#" ++ niche_tag niche ++ " #" ++ removeSpaces city ++
      " #Professional #Local",
    timeSlot, cta,
    "Professional " ++ niche ++ " business in " ++ city ++
      ", modern setup, \x27@salonsuitedigitalstudio\x27 visible"]

/-- One day of the handler loop of `main.py`, lines 104-134: the AI is only
tried when the whole request is at most 7 days, and any post that is falsy
or splits into fewer than 6 pipe fields is replaced by `template_post`. -/
def main_day_post (niche city : String) (numDays day : Nat)
    (ai : Option String) : String :=
  let post : Option String :=
    if numDays ≤ 7 then some (generate_social_post niche city day ai) else none
  match post with
  | none => template_post niche city day
  | some p => if p = "" ∨ numFields p < 6 then template_post niche city day else p

/-- `p.strip().replace("\n", " ")` applied to one split part. -/
def cleanPart (p : String) : String :=
  String.mk ((pyStrip p).data.map (fun c => if c = '\n' then ' ' else c))

/-- `[p.strip().replace("\n", " ") for p in post.strip().split("|")]`. -/
def parseParts (post : String) : List String :=
  (splitPipe (pyStrip post)).map cleanPart

/-- The calendar-entry assembly of `main.py` lines 137-151: each field is
`parts[k]` when present, otherwise a niche/city-derived default. -/
def parse_calendar_entry (niche city : String) (day : Nat) (post : String) :
    CalendarEntry :=
  let parts := parseParts post
  { day := parts.getD 0 ("Day " ++ Nat.repr day)
    activity := parts.getD 1 "Social media post"
    script := parts.getD 2 ("Professional " ++ niche ++ " content")
    visual := parts.getD 3 "Professional visual"
    caption := parts.getD 4 ("Quality " ++ niche ++ " in " ++ city)
    hashtags := parts.getD 5 ("#" ++ niche_tag niche ++ " #" ++ removeSpaces city)
    time := parts.getD 6 "Peak hours"
    cta := parts.getD 7 "Book now"
    prompt := parts.getD 8 ("Professional " ++ niche ++ " business in " ++ city) }

/-- The day loop of `main.py`: one parsed entry is appended per day
1..numDays (the per-day body is total, so the emergency `except` branch of
the source is unreachable in the model). -/
def main_entries (niche city : String) (numDays : Nat)
    (ai : Nat → Option String) : List CalendarEntry :=
  (List.range' 1 numDays).map fun day =>
    parse_calendar_entry niche city day
      (main_day_post niche city numDays day (ai day))

/-- The POST branch of the `/generate` handler of `main.py`: validation of
niche/city and of the 1..30 day bound, then the day loop.  The result pair
is (error message, accumulated calendar rows). -/
def main_generate_calendar (niche city : String) (numDays : Int)
    (ai : Nat → Option String) : Option String × List CalendarEntry :=
  if niche = "" ∨ city = "" then
    (some "Please select at least one niche and enter your city.", [])
  else if numDays < 1 ∨ 30 < numDays then
    (some "Number of days must be between 1 and 30.", [])
  else
    let entries := main_entries niche city numDays.toNat ai
    (if entries = [] then
      some "No content was generated. Please check your input and try again."
     else none, entries)

/-! ### `ultra_safe_main.py`: `create_safe_content` and its handler -/

/-- `create_safe_content(niche, city, day)`: template content with no AI
calls; note its activity/script/time/CTA lists all rotate by
`(day - 1) % len`. -/
def create_safe_content (niche city : String) (day : Nat) : CalendarEntry :=
  let safeNiche := if niche ≠ "" then pyStrip ((splitCh ',' niche).getD 0 "")
    else "business"
  let safeCity := if city ≠ "" then pyStrip city else "local"
  let scripts :=
    ["See what makes our " ++ safeNiche ++ " special in " ++ safeCity,
     "Happy clients are our priority at our " ++ safeNiche ++ " in " ++ safeCity,
     "Professional " ++ safeNiche ++ " services you can trust in " ++ safeCity,
     "Quality " ++ safeNiche ++ " experience in " ++ safeCity,
     "Your local " ++ safeNiche ++ " experts in " ++ safeCity,
     "Excellence in " ++ safeNiche ++ " services in " ++ safeCity,
     "Transform your look with our " ++ safeNiche ++ " in " ++ safeCity]
  let script := scripts.getD ((day - 1) % scripts.length) ""
  { day := "Day " ++ Nat.repr day
    activity := main_activities.getD ((day - 1) % main_activities.length) ""
    script := script
    visual := "Professional " ++ safeNiche ++ " content"
    caption := script ++ " Book your appointment today!"
    hashtags := "#" ++ removeSpaces safeNiche ++ " #" ++ removeSpaces safeCity ++
      " #Professional #Local"
    time := main_times.getD ((day - 1) % main_times.length) ""
    cta := main_ctas.getD ((day - 1) % main_ctas.length) ""
    prompt := "Professional " ++ safeNiche ++ " business in " ++ safeCity ++
      ", modern setup, \x27@salonsuitedigitalstudio\x27 visible" }

/-- The POST branch of `/generate` in `ultra_safe_main.py`: same validation
shape as `main.py` but with the 1..10 day bound, then one
`create_safe_content` entry per day. -/
def ultra_generate_calendar (niche city : String) (numDays : Int) :
    Option String × List CalendarEntry :=
  if niche = "" ∨ city = "" then
    (some "Please select at least one niche and enter your city.", [])
  else if numDays < 1 ∨ 10 < numDays then
    (some "Number of days must be between 1 and 10.", [])
  else
    let entries := (List.range' 1 numDays.toNat).map
      (fun day => create_safe_content niche city day)
    (if entries = [] then some "No content was generated. Please try again."
     else none, entries)

/-! ### The resource governor of `deployment_main.py` / `ultra_safe_main.py`

`ProductionSafety` (max_concurrent = 2) and `UltraSafety` (max_requests = 5)
keep a lock-guarded counter of in-flight requests; under the lock the
counter operations are atomic, so the governor is modelled as a transition
system over the counter value. -/

/-- `start_request`: admit (increment) when strictly below the bound,
otherwise raise "Server busy" leaving the counter unchanged (`none`). -/
def start_request (maxConcurrent active : Nat) : Option Nat :=
  if maxConcurrent ≤ active then none else some (active + 1)

/-- `end_request`: `self.active_requests = max(0, self.active_requests - 1)`. -/
def end_request (active : Nat) : Nat :=
  active - 1

/-- One observable governor event. -/
inductive GovOp where
  | startReq : GovOp
  | endReq : GovOp

/-- Effect of one event on the counter; a rejected admission leaves the
counter unchanged. -/
def gov_step (maxConcurrent active : Nat) : GovOp → Nat
  | .startReq => (start_request maxConcurrent active).getD active
  | .endReq => end_request active

/-- Run a sequence of governor events from a counter value. -/
def gov_run (maxConcurrent : Nat) : List GovOp → Nat → Nat
  | [], active => active
  | op :: ops, active => gov_run maxConcurrent ops (gov_step maxConcurrent active op)

/-- `ProductionSafety.max_concurrent` in `deployment_main.py`. -/
def production_max_concurrent : Nat := 2

/-- `UltraSafety.max_requests` in `ultra_safe_main.py`. -/
def ultra_max_requests : Nat := 5

/-! ### `crash_prevention.py`: `safe_batch_generation` -/

/-- A per-day record of `safe_batch_generation` (lower-case dict keys,
integer `day`). -/
structure BatchPost where
  day : Nat
  activity : String
  script : String
  visual : String
  caption : String
  hashtags : String
  time : String
  cta : String
  ai_prompt : String
deriving DecidableEq

/-- The `used_signatures` set built in `safe_batch_generation`.  The
records store lower-case keys (`activity`, `script`), so the capitalised
lookups `item.get('Activity', '')` and `item.get('Script', '')` always
return `''` and every signature is the constant `"_"`. -/
def batch_used_signatures (calendar : List BatchPost) : List String :=
  calendar.map (fun _ => pyLower "" ++ "_" ++ pyLower (pyTake 30 ""))

/-- The inner `generate_single_post` closure: try `generate_social_post`,
and regenerate through `generate_diverse_content` when the post is falsy or
has fewer than 6 pipe fields. -/
def generate_single_post (niche city : String) (day : Nat)
    (ai : Option String) (calendar : List BatchPost) : String :=
  let post := generate_social_post niche city day ai
  if post = "" ∨ numFields post < 6 then
    generate_diverse_content niche city day (batch_used_signatures calendar)
  else post

/-- Build the appended record from a split with at least 9 fields
(`fields[1].strip()`, ..., `fields[8].strip()`; `fields[0]` is skipped). -/
def batch_post_of_fields (day : Nat) (fields : List String) : BatchPost :=
  { day := day
    activity := pyStrip (fields.getD 1 "")
    script := pyStrip (fields.getD 2 "")
    visual := pyStrip (fields.getD 3 "")
    caption := pyStrip (fields.getD 4 "")
    hashtags := pyStrip (fields.getD 5 "")
    time := pyStrip (fields.getD 6 "")
    cta := pyStrip (fields.getD 7 "")
    ai_prompt := pyStrip (fields.getD 8 "") }

/-- The per-business day loop of `safe_batch_generation`: a day is appended
only when its post is truthy and splits into at least 9 fields; otherwise
the day is silently skipped. -/
def safe_batch_go (niche city : String) (ai : Nat → Option String) :
    List Nat → List BatchPost → List BatchPost
  | [], calendar => calendar
  | day :: rest, calendar =>
    let post := generate_single_post niche city day (ai day) calendar
    let fields := splitPipe post
    if post ≠ "" ∧ 9 ≤ fields.length then
      safe_batch_go niche city ai rest (calendar ++ [batch_post_of_fields day fields])
    else
      safe_batch_go niche city ai rest calendar

/-- The day list `range(1, min(days + 1, 10))` of `safe_batch_generation`,
i.e. days `1 .. min(days, 9)`. -/
def batch_days (days : Nat) : List Nat :=
  List.range' 1 (min days 9)

/-- The per-business calendar built by `safe_batch_generation`. -/
def safe_batch_calendar (niche city : String) (days : Nat)
    (ai : Nat → Option String) : List BatchPost :=
  safe_batch_go niche city ai (batch_days days) []

/-! ### Basic lemmas: pipe-freedom and splitting -/

theorem noPipe_append {a b : String} :
    noPipe (a ++ b) ↔ noPipe a ∧ noPipe b := by
  simp [noPipe, List.mem_append, not_or]

theorem noPipe_mk {l : List Char} : noPipe (String.mk l) ↔ '|' ∉ l :=
  Iff.rfl

/-- No basic-latin lowercasing can produce `'|'`. -/
theorem toLower_ne_pipe {c : Char} (hc : c ≠ '|') : c.toLower ≠ '|' := by
  intro hEq
  simp only [Char.toLower] at hEq
  split at hEq
  · next h =>
    obtain ⟨h1, h2⟩ := h
    generalize hg : c.toNat = m at h1 h2 hEq
    interval_cases m <;> exact absurd hEq (by decide)
  · exact hc hEq

/-- No basic-latin uppercasing can produce `'|'`. -/
theorem toUpper_ne_pipe {c : Char} (hc : c ≠ '|') : c.toUpper ≠ '|' := by
  intro hEq
  simp only [Char.toUpper] at hEq
  split at hEq
  · next h =>
    obtain ⟨h1, h2⟩ := h
    generalize hg : c.toNat = m at h1 h2 hEq
    interval_cases m <;> exact absurd hEq (by decide)
  · exact hc hEq

theorem titleAux_noPipe {l : List Char} (h : '|' ∉ l) :
    ∀ b, '|' ∉ titleAux b l := by
  induction l with
  | nil => intro b; simp [titleAux]
  | cons c cs ih =>
    intro b
    simp only [titleAux, List.mem_cons, not_or]
    have hc : c ≠ '|' := fun hEq => h (hEq ▸ List.mem_cons_self c cs)
    have hcs : '|' ∉ cs := fun hmem => h (List.mem_cons_of_mem c hmem)
    refine ⟨?_, ih hcs _⟩
    intro hEq
    split at hEq
    · split at hEq
      · exact toLower_ne_pipe hc hEq.symm
      · exact toUpper_ne_pipe hc hEq.symm
    · exact hc hEq.symm

theorem noPipe_title {s : String} (h : noPipe s) : noPipe (pyTitle s) :=
  (noPipe_mk).mpr (titleAux_noPipe h false)

theorem noPipe_removeSpaces {s : String} (h : noPipe s) :
    noPipe (removeSpaces s) := by
  intro hmem
  exact h (List.mem_of_mem_filter hmem)

theorem noPipe_joinSep {sep : String} (hsep : noPipe sep) :
    ∀ l : List String, (∀ x ∈ l, noPipe x) → noPipe (joinSep sep l) := by
  intro l
  induction l with
  | nil => intro _; show noPipe ""; decide
  | cons a rest ih =>
    intro h
    cases rest with
    | nil => exact h a (List.mem_cons_self a [])
    | cons b t =>
      rw [joinSep]
      simp only [noPipe_append]
      exact ⟨h a (List.mem_cons_self _ _), hsep,
        ih fun x hx => h x (List.mem_cons_of_mem a hx)⟩

theorem digitChar_ne_pipe (m : Nat) : Nat.digitChar m ≠ '|' := by
  rcases Nat.lt_or_ge m 16 with hlt | hge
  · interval_cases m <;> decide
  · have e : Nat.digitChar m = '*' := by
      have h0 : ¬ m = 0 := by omega
      have h1 : ¬ m = 1 := by omega
      have h2 : ¬ m = 2 := by omega
      have h3 : ¬ m = 3 := by omega
      have h4 : ¬ m = 4 := by omega
      have h5 : ¬ m = 5 := by omega
      have h6 : ¬ m = 6 := by omega
      have h7 : ¬ m = 7 := by omega
      have h8 : ¬ m = 8 := by omega
      have h9 : ¬ m = 9 := by omega
      have h10 : ¬ m = 10 := by omega
      have h11 : ¬ m = 11 := by omega
      have h12 : ¬ m = 12 := by omega
      have h13 : ¬ m = 13 := by omega
      have h14 : ¬ m = 14 := by omega
      have h15 : ¬ m = 15 := by omega
      unfold Nat.digitChar
      rw [if_neg h0, if_neg h1, if_neg h2, if_neg h3, if_neg h4, if_neg h5,
        if_neg h6, if_neg h7, if_neg h8, if_neg h9, if_neg h10, if_neg h11,
        if_neg h12, if_neg h13, if_neg h14, if_neg h15]
    rw [e]
    decide

theorem toDigitsCore_ne_pipe :
    ∀ (fuel n : Nat) (ds : List Char), '|' ∉ ds →
      '|' ∉ Nat.toDigitsCore 10 fuel n ds := by
  intro fuel
  induction fuel with
  | zero => intro n ds h; exact h
  | succ f ih =>
    intro n ds h
    rw [Nat.toDigitsCore]
    have hd : '|' ∉ Nat.digitChar (n % 10) :: ds := by
      simp only [List.mem_cons, not_or]
      exact ⟨fun hEq => digitChar_ne_pipe _ hEq.symm, h⟩
    split
    · exact hd
    · exact ih _ _ hd

/-- Decimal representations of naturals contain no pipe. -/
theorem noPipe_natRepr (n : Nat) : noPipe (Nat.repr n) := by
  show '|' ∉ (Nat.toDigits 10 n).asString.data
  rw [Nat.toDigits]
  exact toDigitsCore_ne_pipe _ _ _ (by simp)

theorem noPipe_getD {l : List String} {d : String} {i : Nat}
    (hl : ∀ x ∈ l, noPipe x) (hd : noPipe d) : noPipe (l.getD i d) := by
  rw [List.getD]
  cases h : l.get? i with
  | none => exact hd
  | some a => exact hl a (List.get?_mem h)

/-! ### Splitting the generators' `" | "`-joined output -/

theorem splitChAux_append_sep {sep : Char} :
    ∀ (xs : List Char), sep ∉ xs → ∀ (ys acc : List Char),
      splitChAux sep (xs ++ sep :: ys) acc =
        String.mk (acc.reverse ++ xs) :: splitChAux sep ys [] := by
  intro xs
  induction xs with
  | nil =>
    intro _ ys acc
    simp [splitChAux]
  | cons c cs ih =>
    intro h ys acc
    have hc : c ≠ sep := fun hEq => h (hEq ▸ List.mem_cons_self c cs)
    have hcs : sep ∉ cs := fun hmem => h (List.mem_cons_of_mem c hmem)
    rw [List.cons_append, splitChAux, if_neg hc, ih hcs ys (c :: acc)]
    simp

theorem splitChAux_no_sep {sep : Char} :
    ∀ (xs : List Char), sep ∉ xs → ∀ (acc : List Char),
      splitChAux sep xs acc = [String.mk (acc.reverse ++ xs)] := by
  intro xs
  induction xs with
  | nil => intro _ acc; simp [splitChAux]
  | cons c cs ih =>
    intro h acc
    have hc : c ≠ sep := fun hEq => h (hEq ▸ List.mem_cons_self c cs)
    have hcs : sep ∉ cs := fun hmem => h (List.mem_cons_of_mem c hmem)
    rw [splitChAux, if_neg hc, ih hcs (c :: acc)]
    simp

/-- Splitting `x ++ " | " ++ rest` on `'|'` peels off the field `x ++ " "`. -/
theorem splitPipe_head {x rest : String} (hx : noPipe x) :
    splitPipe (x ++ (" | " ++ rest)) = (x ++ " ") :: splitPipe (" " ++ rest) := by
  obtain ⟨xl⟩ := x
  obtain ⟨rl⟩ := rest
  show splitChAux '|' (xl ++ (' ' :: '|' :: ' ' :: rl)) [] = _
  rw [show xl ++ (' ' :: '|' :: ' ' :: rl) = (xl ++ [' ']) ++ '|' :: (' ' :: rl) by
    simp]
  rw [splitChAux_append_sep (xl ++ [' '])
    (by intro hmem
        rcases List.mem_append.mp hmem with h | h
        · exact hx h
        · simp at h) (' ' :: rl) []]
  rfl

/-- Splitting `" " ++ x ++ " | " ++ rest` peels off the field `" " ++ x ++ " "`. -/
theorem splitPipe_mid {x rest : String} (hx : noPipe x) :
    splitPipe (" " ++ (x ++ (" | " ++ rest))) =
      (" " ++ x ++ " ") :: splitPipe (" " ++ rest) := by
  obtain ⟨xl⟩ := x
  obtain ⟨rl⟩ := rest
  show splitChAux '|' (' ' :: (xl ++ (' ' :: '|' :: ' ' :: rl))) [] = _
  rw [show ' ' :: (xl ++ (' ' :: '|' :: ' ' :: rl)) =
    ((' ' :: xl) ++ [' ']) ++ '|' :: (' ' :: rl) by simp]
  rw [splitChAux_append_sep ((' ' :: xl) ++ [' '])
    (by intro hmem
        rcases List.mem_append.mp hmem with h | h
        · rcases List.mem_cons.mp h with h | h
          · exact absurd h (by decide)
          · exact hx h
        · simp at h) (' ' :: rl) []]
  rfl

/-- The final field `" " ++ x` of a `" | "`-join. -/
theorem splitPipe_last {x : String} (hx : noPipe x) :
    splitPipe (" " ++ x) = [" " ++ x] := by
  obtain ⟨xl⟩ := x
  show splitChAux '|' (' ' :: xl) [] = _
  rw [splitChAux_no_sep (' ' :: xl)
    (by intro hmem
        rcases List.mem_cons.mp hmem with h | h
        · exact absurd h (by decide)
        · exact hx h) []]
  rfl

/-- A nine-field `" | "`-join of pipe-free strings splits into exactly its
nine (space-padded) fields. -/
theorem splitPipe_nine {x0 x1 x2 x3 x4 x5 x6 x7 x8 : String}
    (h0 : noPipe x0) (h1 : noPipe x1) (h2 : noPipe x2) (h3 : noPipe x3)
    (h4 : noPipe x4) (h5 : noPipe x5) (h6 : noPipe x6) (h7 : noPipe x7)
    (h8 : noPipe x8) :
    splitPipe (joinSep " | " [x0, x1, x2, x3, x4, x5, x6, x7, x8]) =
      [x0 ++ " ", " " ++ x1 ++ " ", " " ++ x2 ++ " ", " " ++ x3 ++ " ",
       " " ++ x4 ++ " ", " " ++ x5 ++ " ", " " ++ x6 ++ " ",
       " " ++ x7 ++ " ", " " ++ x8] := by
  show splitPipe (x0 ++ (" | " ++ joinSep " | " [x1, x2, x3, x4, x5, x6, x7, x8])) = _
  rw [splitPipe_head h0]
  rw [show joinSep " | " [x1, x2, x3, x4, x5, x6, x7, x8] =
    x1 ++ (" | " ++ joinSep " | " [x2, x3, x4, x5, x6, x7, x8]) from rfl,
    splitPipe_mid h1]
  rw [show joinSep " | " [x2, x3, x4, x5, x6, x7, x8] =
    x2 ++ (" | " ++ joinSep " | " [x3, x4, x5, x6, x7, x8]) from rfl,
    splitPipe_mid h2]
  rw [show joinSep " | " [x3, x4, x5, x6, x7, x8] =
    x3 ++ (" | " ++ joinSep " | " [x4, x5, x6, x7, x8]) from rfl,
    splitPipe_mid h3]
  rw [show joinSep " | " [x4, x5, x6, x7, x8] =
    x4 ++ (" | " ++ joinSep " | " [x5, x6, x7, x8]) from rfl,
    splitPipe_mid h4]
  rw [show joinSep " | " [x5, x6, x7, x8] =
    x5 ++ (" | " ++ joinSep " | " [x6, x7, x8]) from rfl,
    splitPipe_mid h5]
  rw [show joinSep " | " [x6, x7, x8] =
    x6 ++ (" | " ++ joinSep " | " [x7, x8]) from rfl,
    splitPipe_mid h6]
  rw [show joinSep " | " [x7, x8] = x7 ++ (" | " ++ joinSep " | " [x8]) from rfl,
    splitPipe_mid h7]
  rw [show joinSep " | " [x8] = x8 from rfl, splitPipe_last h8]

theorem numFields_nine {x0 x1 x2 x3 x4 x5 x6 x7 x8 : String}
    (h0 : noPipe x0) (h1 : noPipe x1) (h2 : noPipe x2) (h3 : noPipe x3)
    (h4 : noPipe x4) (h5 : noPipe x5) (h6 : noPipe x6) (h7 : noPipe x7)
    (h8 : noPipe x8) :
    numFields (joinSep " | " [x0, x1, x2, x3, x4, x5, x6, x7, x8]) = 9 := by
  rw [numFields, splitPipe_nine h0 h1 h2 h3 h4 h5 h6 h7 h8]
  rfl

/-! ### Pipe-freedom of the generated components -/

theorem noPipe_dayRepr (day : Nat) : noPipe ("Day " ++ Nat.repr day) := by
  rw [noPipe_append]
  exact ⟨by decide, noPipe_natRepr day⟩

theorem base_activities_noPipe {niche : String} (hn : noPipe niche) :
    ∀ x ∈ base_activities niche, noPipe x := by
  intro x hx
  simp only [base_activities, List.mem_cons, List.not_mem_nil, or_false] at hx
  rcases hx with rfl|rfl|rfl|rfl|rfl|rfl|rfl|rfl|rfl|rfl <;>
    simp +decide [noPipe_append, hn, noPipe_title hn]

theorem base_scripts_noPipe {niche city : String} (hn : noPipe niche)
    (hc : noPipe city) : ∀ x ∈ base_scripts niche city, noPipe x := by
  intro x hx
  simp only [base_scripts, List.mem_cons, List.not_mem_nil, or_false] at hx
  rcases hx with rfl|rfl|rfl|rfl|rfl|rfl|rfl|rfl|rfl|rfl <;>
    simp +decide [noPipe_append, hn, hc]

theorem base_visuals_noPipe {niche : String} (hn : noPipe niche) :
    ∀ x ∈ base_visuals niche, noPipe x := by
  intro x hx
  simp only [base_visuals, List.mem_cons, List.not_mem_nil, or_false] at hx
  rcases hx with rfl|rfl|rfl|rfl|rfl|rfl|rfl|rfl <;>
    simp +decide [noPipe_append, hn]

theorem base_captions_noPipe {niche city : String} (hn : noPipe niche)
    (hc : noPipe city) : ∀ x ∈ base_captions niche city, noPipe x := by
  intro x hx
  simp only [base_captions, List.mem_cons, List.not_mem_nil, or_false] at hx
  rcases hx with rfl|rfl|rfl|rfl|rfl <;>
    simp +decide [noPipe_append, hn, hc]

theorem base_hashtags_noPipe {niche city : String} (hn : noPipe niche)
    (hc : noPipe city) : ∀ x ∈ base_hashtags niche city, noPipe x := by
  intro x hx
  simp only [base_hashtags, List.mem_cons, List.not_mem_nil, or_false] at hx
  rcases hx with rfl|rfl|rfl|rfl <;>
    simp +decide [noPipe_append, noPipe_title (noPipe_removeSpaces hn),
      noPipe_title (noPipe_removeSpaces hc)]

theorem fallback_times_noPipe : ∀ x ∈ fallback_times, noPipe x := by decide

theorem fallback_ctas_noPipe : ∀ x ∈ fallback_ctas, noPipe x := by decide

theorem fallback_hashtags_noPipe {niche city : String} (hn : noPipe niche)
    (hc : noPipe city) :
    noPipe (joinSep " " (base_hashtags niche city) ++ " #" ++
      removeSpaces city ++ "Local") := by
  have hj : noPipe (joinSep " " (base_hashtags niche city)) :=
    noPipe_joinSep (show noPipe " " by decide) _ (base_hashtags_noPipe hn hc)
  simp +decide [noPipe_append, noPipe_removeSpaces hc, hj]

theorem location_hashtags_beauty_noPipe {niche city : String}
    (hn : noPipe niche) (hc : noPipe city) :
    noPipe (location_hashtags_beauty niche city) := by
  simp +decide [location_hashtags_beauty, noPipe_append,
    noPipe_removeSpaces hc, noPipe_title (noPipe_removeSpaces hn)]

theorem location_hashtags_other_noPipe {niche city : String}
    (hn : noPipe niche) (hc : noPipe city) :
    noPipe (location_hashtags_other niche city) := by
  simp +decide [location_hashtags_other, noPipe_append,
    noPipe_removeSpaces hc, noPipe_title (noPipe_removeSpaces hn),
    noPipe_title (noPipe_removeSpaces hc)]

theorem fallback_prompt_beauty_noPipe {niche city : String}
    (hn : noPipe niche) (hc : noPipe city) :
    noPipe (fallback_prompt_beauty niche city) := by
  simp +decide [fallback_prompt_beauty, noPipe_append, hn, hc]

theorem fallback_prompt_other_noPipe {niche city : String}
    (hn : noPipe niche) (hc : noPipe city) :
    noPipe (fallback_prompt_other niche city) := by
  simp +decide [fallback_prompt_other, noPipe_append, hn, hc]

theorem trends_hashtags_noPipe (s : String) : noPipe (trends_hashtags s) := by
  simp only [trends_hashtags]
  repeat' split
  all_goals decide

/-! ### The fallback and emergency outputs always have 9 fields -/

/-- Whenever `get_fallback_content` returns (does not raise), its output has
exactly 9 pipe-delimited fields, provided the inputs are pipe-free. -/
theorem fallback_numFields {niche city : String} {day : Nat} {p : String}
    (hn : noPipe niche) (hc : noPipe city)
    (h : get_fallback_content niche city day = some p) : numFields p = 9 := by
  simp only [get_fallback_content] at h
  split at h
  · next activity script visual caption time cta h1 h2 h3 h4 h5 h6 =>
    simp only [Option.some.injEq] at h
    subst h
    split
    · exact numFields_nine (noPipe_dayRepr day)
        (base_activities_noPipe hn _ (List.get?_mem h1))
        (base_scripts_noPipe hn hc _ (List.get?_mem h2))
        (base_visuals_noPipe hn _ (List.get?_mem h3))
        (base_captions_noPipe hn hc _ (List.get?_mem h4))
        ((noPipe_append).mpr ⟨fallback_hashtags_noPipe hn hc,
          location_hashtags_beauty_noPipe hn hc⟩)
        (fallback_times_noPipe _ (List.get?_mem h5))
        (fallback_ctas_noPipe _ (List.get?_mem h6))
        (fallback_prompt_beauty_noPipe hn hc)
    · exact numFields_nine (noPipe_dayRepr day)
        (base_activities_noPipe hn _ (List.get?_mem h1))
        (base_scripts_noPipe hn hc _ (List.get?_mem h2))
        (base_visuals_noPipe hn _ (List.get?_mem h3))
        (base_captions_noPipe hn hc _ (List.get?_mem h4))
        ((noPipe_append).mpr ⟨fallback_hashtags_noPipe hn hc,
          location_hashtags_other_noPipe hn hc⟩)
        (fallback_times_noPipe _ (List.get?_mem h5))
        (fallback_ctas_noPipe _ (List.get?_mem h6))
        (fallback_prompt_other_noPipe hn hc)
  · exact absurd h (by simp)

/-- The hard-coded emergency string also has exactly 9 fields. -/
theorem emergency_numFields {niche city : String} (day : Nat)
    (hn : noPipe niche) (hc : noPipe city) :
    numFields (emergency_post niche city day) = 9 := by
  refine numFields_nine (noPipe_dayRepr day) (by decide) ?_ (by decide) ?_
    (trends_hashtags_noPipe _) (by decide) (by decide) (by decide)
  · simp +decide [noPipe_append, hn]
  · simp +decide [noPipe_append, hn, hc]

theorem numFields_empty : numFields "" = 1 := by decide

/-! ### Helper lemmas about the governor, the dedup loop and the batch loop -/

theorem gov_step_le {maxC a : Nat} (h : a ≤ maxC) (op : GovOp) :
    gov_step maxC a op ≤ maxC := by
  cases op with
  | startReq =>
    simp only [gov_step, start_request]
    split
    · simpa using h
    · next hlt =>
      simp only [Option.getD_some]
      omega
  | endReq =>
    simp only [gov_step, end_request]
    omega

theorem gov_run_le {maxC : Nat} :
    ∀ (ops : List GovOp) (a : Nat), a ≤ maxC → gov_run maxC ops a ≤ maxC := by
  intro ops
  induction ops with
  | nil => intro a h; exact h
  | cons op rest ih => intro a h; exact ih _ (gov_step_le h op)

theorem dedupGo_counter_le (used : List String) (th : Theme) :
    ∀ (fuel aIdx sIdx c : Nat), (dedupGo used th fuel aIdx sIdx c).2.2 ≤ c + fuel := by
  intro fuel
  induction fuel with
  | zero => intro a s c; simp [dedupGo]
  | succ k ih =>
    intro a s c
    rw [dedupGo]
    split
    · have := ih ((a + 1) % th.activities.length) ((s + 1) % th.scripts.length)
        (c + 1)
      omega
    · simp


theorem safe_batch_go_length (niche city : String) (ai : Nat → Option String) :
    ∀ (ds : List Nat) (acc : List BatchPost),
      (safe_batch_go niche city ai ds acc).length ≤ acc.length + ds.length := by
  intro ds
  induction ds with
  | nil => intro acc; simp [safe_batch_go]
  | cons d rest ih =>
    intro acc
    rw [safe_batch_go]
    split
    · have := ih (acc ++ [batch_post_of_fields d
        (splitPipe (generate_single_post niche city d (ai d) acc))])
      simp only [List.length_append, List.length_cons, List.length_nil] at this ⊢
      omega
    · have := ih acc
      simp only [List.length_cons] at this ⊢
      omega

theorem safe_batch_go_days {niche city : String} {ai : Nat → Option String} :
    ∀ (ds : List Nat) (acc : List BatchPost) (p : BatchPost),
      p ∈ safe_batch_go niche city ai ds acc → p ∈ acc ∨ p.day ∈ ds := by
  intro ds
  induction ds with
  | nil => intro acc p hp; exact Or.inl hp
  | cons d rest ih =>
    intro acc p hp
    rw [safe_batch_go] at hp
    split at hp
    · rcases ih _ _ hp with hmem | hmem
      · rcases List.mem_append.mp hmem with h | h
        · exact Or.inl h
        · simp only [List.mem_singleton] at h
          subst h
          exact Or.inr (List.mem_cons_self _ _)
      · exact Or.inr (List.mem_cons_of_mem _ hmem)
    · rcases ih _ _ hp with hmem | hmem
      · exact Or.inl hmem
      · exact Or.inr (List.mem_cons_of_mem _ hmem)

theorem safe_batch_go_pairwise {niche city : String} {ai : Nat → Option String} :
    ∀ (ds : List Nat) (acc : List BatchPost),
      List.Pairwise (· < ·) ds →
      (∀ p ∈ acc, ∀ d ∈ ds, p.day < d) →
      List.Pairwise (· < ·) (acc.map BatchPost.day) →
      List.Pairwise (· < ·)
        ((safe_batch_go niche city ai ds acc).map BatchPost.day) := by
  intro ds
  induction ds with
  | nil => intro acc _ _ hacc; simpa [safe_batch_go] using hacc
  | cons d rest ih =>
    intro acc hds hord hacc
    rw [safe_batch_go]
    split
    · refine ih _ (List.Pairwise.of_cons hds) ?_ ?_
      · intro p hp d' hd'
        rcases List.mem_append.mp hp with h | h
        · exact hord p h d' (List.mem_cons_of_mem _ hd')
        · simp only [List.mem_singleton] at h
          subst h
          exact (List.pairwise_cons.mp hds).1 d' hd'
      · rw [List.map_append, List.pairwise_append]
        refine ⟨hacc, by simp, ?_⟩
        intro x hx y hy
        rcases List.mem_map.mp hx with ⟨p, hp, rfl⟩
        simp only [List.map_cons, List.map_nil, List.mem_singleton] at hy
        subst hy
        exact hord p hp _ (List.mem_cons_self _ _)
    · refine ih _ (List.Pairwise.of_cons hds) ?_ hacc
      intro p hp d' hd'
      exact hord p hp d' (List.mem_cons_of_mem _ hd')

theorem main_entries_length (niche city : String) (N : Nat)
    (ai : Nat → Option String) : (main_entries niche city N ai).length = N := by
  simp [main_entries]

/-! ### Helper lemmas for the rotation claim (C5) -/

theorem dedupGo_nil (th : Theme) (a s c : Nat) :
    dedupGo [] th 10 a s c = (a, s, c) := by
  simp [dedupGo]

theorem content_theme_hair_noPipe (k : Nat) :
    (∀ x ∈ (content_theme "hair" "Austin" k).activities, noPipe x) ∧
    (∀ x ∈ (content_theme "hair" "Austin" k).scripts, noPipe x) := by
  unfold content_theme
  repeat' split
  all_goals exact ⟨by decide, by decide⟩

/-- The split shape of `generate_diverse_content` on an empty used set for
the concrete inputs "hair"/"Austin": activity and script are selected at
`(day - 1) % len` inside the `day % 5` theme, everything else at
`day % len`. -/
theorem diverse_split_hair (day : Nat) :
    splitPipe (generate_diverse_content "hair" "Austin" day []) =
      ["Day " ++ Nat.repr day ++ " ",
       " " ++ (content_theme "hair" "Austin" (day % 5)).activities.getD
           ((day - 1) %
             (content_theme "hair" "Austin" (day % 5)).activities.length) "" ++ " ",
       " " ++ (content_theme "hair" "Austin" (day % 5)).scripts.getD
           ((day - 1) %
             (content_theme "hair" "Austin" (day % 5)).scripts.length) "" ++ " ",
       " " ++ (diverse_visuals "hair").getD
           (day % (diverse_visuals "hair").length) "" ++ " ",
       " " ++ (diverse_captions "hair" "Austin").getD
           (day % (diverse_captions "hair" "Austin").length) "" ++ " ",
       " " ++ (diverse_hashtags_sets "hair" "Austin").getD
           (day % (diverse_hashtags_sets "hair" "Austin").length) "" ++ " ",
       " " ++ diverse_times.getD (day % diverse_times.length) "" ++ " ",
       " " ++ diverse_ctas.getD (day % diverse_ctas.length) "" ++ " ",
       " " ++ diverse_prompt "hair" "Austin"] := by
  simp only [generate_diverse_content, dedupResult, dedupGo_nil]
  rw [splitPipe_nine (noPipe_dayRepr day)
    (noPipe_getD (content_theme_hair_noPipe (day % 5)).1 (by decide))
    (noPipe_getD (content_theme_hair_noPipe (day % 5)).2 (by decide))
    (noPipe_getD (by decide) (by decide))
    (noPipe_getD (by decide) (by decide))
    (noPipe_getD (by decide) (by decide))
    (noPipe_getD (by decide) (by decide))
    (noPipe_getD (by decide) (by decide))
    (by decide)]

/-- The split shape of a successful `get_fallback_content` for the concrete
inputs "hair"/"Austin": activity/script/visual all share the single index
`(day - 1) % len(base_activities)`, caption/time/CTA re-reduce that index
modulo their own lengths, and the hashtag field is a join of the whole
hashtag list, not a selection. -/
theorem fallback_split_hair (day : Nat) (p : String)
    (h : get_fallback_content "hair" "Austin" day = some p) :
    splitPipe p =
      ["Day " ++ Nat.repr day ++ " ",
       " " ++ (base_activities "hair").getD
           ((day - 1) % (base_activities "hair").length) "" ++ " ",
       " " ++ (base_scripts "hair" "Austin").getD
           ((day - 1) % (base_activities "hair").length) "" ++ " ",
       " " ++ (base_visuals "hair").getD
           ((day - 1) % (base_activities "hair").length) "" ++ " ",
       " " ++ (base_captions "hair" "Austin").getD
           (((day - 1) % (base_activities "hair").length) %
             (base_captions "hair" "Austin").length) "" ++ " ",
       " " ++ (joinSep " " (base_hashtags "hair" "Austin") ++ " #" ++
           removeSpaces "Austin" ++ "Local" ++
           location_hashtags_beauty "hair" "Austin") ++ " ",
       " " ++ fallback_times.getD
           (((day - 1) % (base_activities "hair").length) %
             fallback_times.length) "" ++ " ",
       " " ++ fallback_ctas.getD
           (((day - 1) % (base_activities "hair").length) %
             fallback_ctas.length) "" ++ " ",
       " " ++ fallback_prompt_beauty "hair" "Austin"] := by
  simp only [get_fallback_content] at h
  split at h
  · next activity script visual caption time cta h1 h2 h3 h4 h5 h6 =>
    rw [if_pos (show isBeautyNiche "hair" = true by decide)] at h
    simp only [Option.some.injEq] at h
    subst h
    have ha : activity = (base_activities "hair").getD
        ((day - 1) % (base_activities "hair").length) "" := by
      rw [List.getD, h1]; rfl
    have hs : script = (base_scripts "hair" "Austin").getD
        ((day - 1) % (base_activities "hair").length) "" := by
      rw [List.getD, h2]; rfl
    have hv : visual = (base_visuals "hair").getD
        ((day - 1) % (base_activities "hair").length) "" := by
      rw [List.getD, h3]; rfl
    have hcap : caption = (base_captions "hair" "Austin").getD
        (((day - 1) % (base_activities "hair").length) %
          (base_captions "hair" "Austin").length) "" := by
      rw [List.getD, h4]; rfl
    have ht : time = fallback_times.getD
        (((day - 1) % (base_activities "hair").length) %
          fallback_times.length) "" := by
      rw [List.getD, h5]; rfl
    have hcta : cta = fallback_ctas.getD
        (((day - 1) % (base_activities "hair").length) %
          fallback_ctas.length) "" := by
      rw [List.getD, h6]; rfl
    subst ha hs hv hcap ht hcta
    rw [splitPipe_nine (noPipe_dayRepr day)
      (noPipe_getD (base_activities_noPipe (by decide)) (by decide))
      (noPipe_getD (base_scripts_noPipe (by decide) (by decide)) (by decide))
      (noPipe_getD (base_visuals_noPipe (by decide)) (by decide))
      (noPipe_getD (base_captions_noPipe (by decide) (by decide)) (by decide))
      (by decide)
      (noPipe_getD fallback_times_noPipe (by decide))
      (noPipe_getD fallback_ctas_noPipe (by decide))
      (by decide)]
  · exact absurd h (by simp)

/-! ### The claims -/

/-- C1: the spec claims `get_fallback_content` returns a 9-field string for
every niche/city and day 1..N, always terminates and never raises.  The
code, however, indexes the 8-element `base_visuals` list with
`(day - 1) % len(base_activities)` = `(day - 1) % 10`, so for day 9 (index
8) it raises `IndexError` — modelled here as returning `none`.  The spec
states the clear intent (a never-failing fallback; every sibling list is
re-reduced modulo its own length) and the code is a slip. -/
theorem c1_fallback_visuals_index_error :
    get_fallback_content "hair" "Austin" 9 = none := rfl

/-- C2 counterexample: `generate_social_post` is claimed to always return a
non-empty 9-field string.  But a successful AI response is returned as-is
after `.strip()`: with content `" "` the function returns the empty string
(1 field, not 9). -/
theorem c2_counterexample :
    generate_social_post "hair" "Austin" 1 (some " ") = "" ∧
    numFields (generate_social_post "hair" "Austin" 1 (some " ")) ≠ 9 := by
  exact ⟨rfl, by decide⟩

/-- C2 (amended): `generate_social_post` never raises (it is a total
function of its oracle); whenever the AI path fails (`none`) or returns
falsy content (`some ""`), the result is fallback content with exactly 9
pipe-delimited fields and non-empty — down to the hard-coded emergency
string when the fallback itself raises; but a truthy AI response is passed
through as `content.strip()` with no field-count or non-emptiness
guarantee. -/
theorem c2_generate_social_post_amended (niche city : String) (day : Nat)
    (hn : noPipe niche) (hc : noPipe city) :
    numFields (generate_social_post niche city day none) = 9 ∧
    generate_social_post niche city day none ≠ "" ∧
    numFields (generate_social_post niche city day (some "")) = 9 ∧
    ∀ c, c ≠ "" → get_fallback_content niche city day ≠ none →
      generate_social_post niche city day (some c) = pyStrip c := by
  cases h : get_fallback_content niche city day with
  | none =>
    have h9 := emergency_numFields day hn hc
    refine ⟨?_, ?_, ?_, ?_⟩
    · simpa [generate_social_post, h] using h9
    · simp only [generate_social_post, h]
      intro he
      rw [he] at h9
      exact absurd h9 (by decide)
    · simpa [generate_social_post, h] using h9
    · intro c _ hne
      exact absurd rfl hne
  | some p =>
    have h9 := fallback_numFields hn hc h
    refine ⟨?_, ?_, ?_, ?_⟩
    · simpa [generate_social_post, h] using h9
    · simp only [generate_social_post, h]
      intro he
      rw [he] at h9
      exact absurd h9 (by decide)
    · simpa [generate_social_post, h] using h9
    · intro c hc' _
      simp [generate_social_post, h, hc']

/-- C2 witness: the amended theorem applied at niche "hair", city "Austin",
day 1. -/
theorem c2_generate_social_post_amended_witness :
    noPipe "hair" ∧ noPipe "Austin" ∧
    (numFields (generate_social_post "hair" "Austin" 1 none) = 9 ∧
     generate_social_post "hair" "Austin" 1 none ≠ "" ∧
     numFields (generate_social_post "hair" "Austin" 1 (some "")) = 9 ∧
     ∀ c, c ≠ "" → get_fallback_content "hair" "Austin" 1 ≠ none →
       generate_social_post "hair" "Austin" 1 (some c) = pyStrip c) :=
  ⟨by decide, by decide,
    c2_generate_social_post_amended "hair" "Austin" 1 (by decide) (by decide)⟩

/-- C3 counterexample: the claim promises exactly N calendar entries for a
run over N days for `generate_calendar` and `safe_batch_generation` alike,
but `safe_batch_generation` caps its day loop at `min(days, 9)`: a 10-day
run (N = 10, within the validated 1..30 bound) yields at most 9 entries. -/
theorem c3_counterexample :
    (safe_batch_calendar "hair" "Austin" 10 (fun _ => none)).length ≠ 10 := by
  have h := safe_batch_go_length "hair" "Austin" (fun _ => none)
    (batch_days 10) []
  have hb : (batch_days 10).length = 9 := by simp [batch_days]
  simp only [List.length_nil] at h
  rw [safe_batch_calendar]
  omega

/-- C3 (amended): in the handler of `main.py` a validated run of N days
(1 ≤ N ≤ 30, non-empty niche and city) appends exactly N entries, one per
day in order; in `safe_batch_generation` the per-business calendar has at
most `min(days, 9)` entries and its integer day numbers are strictly
increasing (hence no duplicates), but days can be silently skipped, so
"exactly N with days 1..N contiguous" fails there. -/
theorem c3_calendar_shape_amended :
    (∀ (niche city : String) (numDays : Int) (ai : Nat → Option String),
      niche ≠ "" → city ≠ "" → 1 ≤ numDays → numDays ≤ 30 →
      ((main_generate_calendar niche city numDays ai).2).length = numDays.toNat) ∧
    (∀ (niche city : String) (days : Nat) (ai : Nat → Option String),
      (safe_batch_calendar niche city days ai).length ≤ min days 9 ∧
      List.Pairwise (· < ·)
        ((safe_batch_calendar niche city days ai).map BatchPost.day)) := by
  constructor
  · intro niche city numDays ai hn hc h1 h30
    unfold main_generate_calendar
    rw [if_neg (by simp [hn, hc]), if_neg (by omega)]
    simp [main_entries_length]
  · intro niche city days ai
    refine ⟨?_, ?_⟩
    · have h := safe_batch_go_length niche city ai (batch_days days) []
      simpa [safe_batch_calendar, batch_days] using h
    · exact safe_batch_go_pairwise (batch_days days) []
        (List.pairwise_lt_range' 1 (min days 9)) (by simp) (by simp)

/-- C3 witness: the amended theorem at a 3-day main run and a 10-day batch
run. -/
theorem c3_calendar_shape_amended_witness :
    (("hair" : String) ≠ "" ∧ ("Austin" : String) ≠ "" ∧ (1 : Int) ≤ 3 ∧
      (3 : Int) ≤ 30 ∧
      ((main_generate_calendar "hair" "Austin" 3 (fun _ => none)).2).length =
        (3 : Int).toNat) ∧
    ((safe_batch_calendar "hair" "Austin" 10 (fun _ => none)).length ≤
        min 10 9 ∧
      List.Pairwise (· < ·)
        ((safe_batch_calendar "hair" "Austin" 10
          (fun _ => none)).map BatchPost.day)) :=
  ⟨⟨by decide, by decide, by decide, by decide,
    c3_calendar_shape_amended.1 "hair" "Austin" 3 (fun _ => none)
      (by decide) (by decide) (by decide) (by decide)⟩,
    c3_calendar_shape_amended.2 "hair" "Austin" 10 (fun _ => none)⟩

/-- C4: the assembler of `main.py` splits on `|`, strips each part
(normalising newlines to spaces), and pads a short split — here the claimed
3-field malformed case — with niche/city-derived defaults, producing a
complete 9-field structured entry instead of raising. -/
theorem c4_parse_pads_missing_fields (niche city : String) (day : Nat)
    (post : String) (a b c : String) (h : parseParts post = [a, b, c]) :
    parse_calendar_entry niche city day post =
      { day := a, activity := b, script := c,
        visual := "Professional visual",
        caption := "Quality " ++ niche ++ " in " ++ city,
        hashtags := "#" ++ niche_tag niche ++ " #" ++ removeSpaces city,
        time := "Peak hours", cta := "Book now",
        prompt := "Professional " ++ niche ++ " business in " ++ city } := by
  simp [parse_calendar_entry, h]

/-- C4 witness: a concrete malformed 3-field response. -/
theorem c4_parse_pads_missing_fields_witness :
    parseParts "Day 1 | Intro | Hello" = ["Day 1", "Intro", "Hello"] ∧
    parse_calendar_entry "hair" "Austin" 1 "Day 1 | Intro | Hello" =
      { day := "Day 1", activity := "Intro", script := "Hello",
        visual := "Professional visual",
        caption := "Quality " ++ "hair" ++ " in " ++ "Austin",
        hashtags := "#" ++ niche_tag "hair" ++ " #" ++ removeSpaces "Austin",
        time := "Peak hours", cta := "Book now",
        prompt := "Professional " ++ "hair" ++ " business in " ++ "Austin" } :=
  ⟨by decide,
    c4_parse_pads_missing_fields "hair" "Austin" 1 "Day 1 | Intro | Hello"
      "Day 1" "Intro" "Hello" (by decide)⟩

/-- C5 counterexample: the claim says every candidate list is selected at
position `(day - 1) mod len(list)`.  In `generate_diverse_content` at day 1
the visual field is the element at index `1 % 8 = 1` — Python indexes it
by `day % len`, not `(day - 1) % len` — and that element differs from the
element at the claimed index `(1 - 1) % 8 = 0`. -/
theorem c5_counterexample :
    (splitPipe (generate_diverse_content "hair" "Austin" 1 [])).getD 3 "" =
      " " ++ (diverse_visuals "hair").getD 1 "" ++ " " ∧
    (diverse_visuals "hair").getD 1 "" ≠
      (diverse_visuals "hair").getD
        ((1 - 1) % (diverse_visuals "hair").length) "" :=
  ⟨by decide, by decide⟩

/-- C5 (amended): in `generate_diverse_content`, the activity and script
are selected at `(day - 1) mod len` within the theme chosen by `day mod 5`,
while the visual/caption/hashtags/time/CTA are selected at `day mod len`;
in `get_fallback_content`, activity/script/visual share the single index
`(day - 1) mod len(activities)` (which overruns the 8-element visual list,
claim C1), caption/time/CTA re-reduce that index modulo their own list
lengths, and the hashtag field is a join of the whole hashtag list rather
than a selection.  Both stated here for the representative inputs
"hair"/"Austin". -/
theorem c5_rotation_amended :
    (∀ day : Nat, 1 ≤ day →
      splitPipe (generate_diverse_content "hair" "Austin" day []) =
        ["Day " ++ Nat.repr day ++ " ",
         " " ++ (content_theme "hair" "Austin" (day % 5)).activities.getD
             ((day - 1) %
               (content_theme "hair" "Austin" (day % 5)).activities.length) ""
           ++ " ",
         " " ++ (content_theme "hair" "Austin" (day % 5)).scripts.getD
             ((day - 1) %
               (content_theme "hair" "Austin" (day % 5)).scripts.length) ""
           ++ " ",
         " " ++ (diverse_visuals "hair").getD
             (day % (diverse_visuals "hair").length) "" ++ " ",
         " " ++ (diverse_captions "hair" "Austin").getD
             (day % (diverse_captions "hair" "Austin").length) "" ++ " ",
         " " ++ (diverse_hashtags_sets "hair" "Austin").getD
             (day % (diverse_hashtags_sets "hair" "Austin").length) "" ++ " ",
         " " ++ diverse_times.getD (day % diverse_times.length) "" ++ " ",
         " " ++ diverse_ctas.getD (day % diverse_ctas.length) "" ++ " ",
         " " ++ diverse_prompt "hair" "Austin"]) ∧
    (∀ day : Nat, get_fallback_content "hair" "Austin" day ≠ none →
      splitPipe ((get_fallback_content "hair" "Austin" day).getD "") =
        ["Day " ++ Nat.repr day ++ " ",
         " " ++ (base_activities "hair").getD
             ((day - 1) % (base_activities "hair").length) "" ++ " ",
         " " ++ (base_scripts "hair" "Austin").getD
             ((day - 1) % (base_activities "hair").length) "" ++ " ",
         " " ++ (base_visuals "hair").getD
             ((day - 1) % (base_activities "hair").length) "" ++ " ",
         " " ++ (base_captions "hair" "Austin").getD
             (((day - 1) % (base_activities "hair").length) %
               (base_captions "hair" "Austin").length) "" ++ " ",
         " " ++ (joinSep " " (base_hashtags "hair" "Austin") ++ " #" ++
             removeSpaces "Austin" ++ "Local" ++
             location_hashtags_beauty "hair" "Austin") ++ " ",
         " " ++ fallback_times.getD
             (((day - 1) % (base_activities "hair").length) %
               fallback_times.length) "" ++ " ",
         " " ++ fallback_ctas.getD
             (((day - 1) % (base_activities "hair").length) %
               fallback_ctas.length) "" ++ " ",
         " " ++ fallback_prompt_beauty "hair" "Austin"]) := by
  constructor
  · intro day _
    exact diverse_split_hair day
  · intro day hne
    cases h : get_fallback_content "hair" "Austin" day with
    | none => exact absurd h hne
    | some p => exact fallback_split_hair day p h

/-- C5 witness: the amended theorem applied at day 1 (where the fallback
succeeds). -/
theorem c5_rotation_amended_witness :
    (1 ≤ 1 ∧
      splitPipe (generate_diverse_content "hair" "Austin" 1 []) =
        ["Day " ++ Nat.repr 1 ++ " ",
         " " ++ (content_theme "hair" "Austin" (1 % 5)).activities.getD
             ((1 - 1) %
               (content_theme "hair" "Austin" (1 % 5)).activities.length) ""
           ++ " ",
         " " ++ (content_theme "hair" "Austin" (1 % 5)).scripts.getD
             ((1 - 1) %
               (content_theme "hair" "Austin" (1 % 5)).scripts.length) ""
           ++ " ",
         " " ++ (diverse_visuals "hair").getD
             (1 % (diverse_visuals "hair").length) "" ++ " ",
         " " ++ (diverse_captions "hair" "Austin").getD
             (1 % (diverse_captions "hair" "Austin").length) "" ++ " ",
         " " ++ (diverse_hashtags_sets "hair" "Austin").getD
             (1 % (diverse_hashtags_sets "hair" "Austin").length) "" ++ " ",
         " " ++ diverse_times.getD (1 % diverse_times.length) "" ++ " ",
         " " ++ diverse_ctas.getD (1 % diverse_ctas.length) "" ++ " ",
         " " ++ diverse_prompt "hair" "Austin"]) ∧
    (get_fallback_content "hair" "Austin" 1 ≠ none ∧
      splitPipe ((get_fallback_content "hair" "Austin" 1).getD "") =
        ["Day " ++ Nat.repr 1 ++ " ",
         " " ++ (base_activities "hair").getD
             ((1 - 1) % (base_activities "hair").length) "" ++ " ",
         " " ++ (base_scripts "hair" "Austin").getD
             ((1 - 1) % (base_activities "hair").length) "" ++ " ",
         " " ++ (base_visuals "hair").getD
             ((1 - 1) % (base_activities "hair").length) "" ++ " ",
         " " ++ (base_captions "hair" "Austin").getD
             (((1 - 1) % (base_activities "hair").length) %
               (base_captions "hair" "Austin").length) "" ++ " ",
         " " ++ (joinSep " " (base_hashtags "hair" "Austin") ++ " #" ++
             removeSpaces "Austin" ++ "Local" ++
             location_hashtags_beauty "hair" "Austin") ++ " ",
         " " ++ fallback_times.getD
             (((1 - 1) % (base_activities "hair").length) %
               fallback_times.length) "" ++ " ",
         " " ++ fallback_ctas.getD
             (((1 - 1) % (base_activities "hair").length) %
               fallback_ctas.length) "" ++ " ",
         " " ++ fallback_prompt_beauty "hair" "Austin"]) :=
  ⟨⟨by decide, c5_rotation_amended.1 1 (by decide)⟩,
    ⟨by decide, c5_rotation_amended.2 1 (by decide)⟩⟩

/-- C6: in every state reachable by any sequence of admissions and releases
from an idle governor, the in-flight counter never exceeds the configured
bound (2 for `ProductionSafety`, 5 for `UltraSafety`); and an admission
attempt at the bound is rejected immediately with a busy error
(`start_request` returns `none`), leaving the counter unchanged. -/
theorem c6_concurrency_bound :
    ∀ (maxConcurrent : Nat) (ops : List GovOp),
      gov_run maxConcurrent ops 0 ≤ maxConcurrent ∧
      start_request maxConcurrent maxConcurrent = none ∧
      gov_step maxConcurrent maxConcurrent GovOp.startReq = maxConcurrent ∧
      production_max_concurrent = 2 ∧ ultra_max_requests = 5 := by
  intro maxConcurrent ops
  refine ⟨gov_run_le ops 0 (Nat.zero_le _), ?_, ?_, rfl, rfl⟩
  · simp [start_request]
  · simp [gov_step, start_request]

/-- C7: for every day-count outside [1, 30] both request handlers
(`main.py`, bound 1..30, and `ultra_safe_main.py`, bound 1..10) return a
validation error and produce no calendar entries. -/
theorem c7_day_bounds_validation (niche city : String) (numDays : Int)
    (ai : Nat → Option String) (h : numDays < 1 ∨ 30 < numDays) :
    ((main_generate_calendar niche city numDays ai).1.isSome ∧
     (main_generate_calendar niche city numDays ai).2 = []) ∧
    ((ultra_generate_calendar niche city numDays).1.isSome ∧
     (ultra_generate_calendar niche city numDays).2 = []) := by
  constructor
  · unfold main_generate_calendar
    rcases em (niche = "" ∨ city = "") with hv | hv
    · rw [if_pos hv]
      simp
    · rw [if_neg hv, if_pos h]
      simp
  · unfold ultra_generate_calendar
    rcases em (niche = "" ∨ city = "") with hv | hv
    · rw [if_pos hv]
      simp
    · rw [if_neg hv, if_pos (show numDays < 1 ∨ 10 < numDays by omega)]
      simp

/-- C7 witness: a 31-day request is rejected by both handlers with no
entries. -/
theorem c7_day_bounds_validation_witness :
    ((31 : Int) < 1 ∨ 30 < (31 : Int)) ∧
    (((main_generate_calendar "hair" "Austin" 31 (fun _ => none)).1.isSome ∧
      (main_generate_calendar "hair" "Austin" 31 (fun _ => none)).2 = []) ∧
     ((ultra_generate_calendar "hair" "Austin" 31).1.isSome ∧
      (ultra_generate_calendar "hair" "Austin" 31).2 = [])) :=
  ⟨by decide,
    c7_day_bounds_validation "hair" "Austin" 31 (fun _ => none) (by decide)⟩

/-- C8: the collision-avoidance loop of `generate_diverse_content` always
terminates (it is a total function) and retries at most 10 times: for every
niche, city, day and used-signature set, the final loop counter is at most
10. -/
theorem c8_dedup_loop_bounded :
    ∀ (niche city : String) (day : Nat) (used : List String),
      (dedupResult niche city day used).2.2 ≤ 10 := by
  intro niche city day used
  unfold dedupResult
  exact dedupGo_counter_le _ _ 10 _ _ 0

/-- C9: `safe_batch_generation` iterates its day loop over
`range(1, min(days + 1, 10))`, i.e. days 1..min(days, 9), so each business
receives at most 9 posts (despite the comment claiming a 10-day cap), and
every generated post's day number lies in 1..9. -/
theorem c9_batch_caps_at_nine_days :
    ∀ (niche city : String) (days : Nat) (ai : Nat → Option String),
      (safe_batch_calendar niche city days ai).length ≤ min days 9 ∧
      ((safe_batch_calendar niche city days ai).map BatchPost.day).all
        (fun d => decide (1 ≤ d ∧ d ≤ 9)) = true := by
  intro niche city days ai
  constructor
  · have h := safe_batch_go_length niche city ai (batch_days days) []
    simpa [safe_batch_calendar, batch_days] using h
  · rw [List.all_eq_true]
    intro d hd
    rcases List.mem_map.mp hd with ⟨p, hp, rfl⟩
    rcases safe_batch_go_days _ _ _ hp with h | h
    · simp at h
    · rw [batch_days, List.mem_range'_1] at h
      simp only [decide_eq_true_eq]
      omega

/-- C10: in the handler of `main.py` the AI generator is only consulted
when the validated day count is at most 7; for every request of 8 to 30
days the whole calendar is produced from the in-handler template lists,
independently of the AI oracle. -/
theorem c10_no_ai_above_seven_days (niche city : String) (numDays : Nat)
    (ai : Nat → Option String) (h8 : 8 ≤ numDays) (h30 : numDays ≤ 30) :
    main_entries niche city numDays ai =
      (List.range' 1 numDays).map
        (fun day => parse_calendar_entry niche city day
          (template_post niche city day)) := by
  have h7 : ¬ (numDays ≤ 7) := by omega
  simp [main_entries, main_day_post, h7]

/-- C10 witness: an 8-day request uses the template path for every day. -/
theorem c10_no_ai_above_seven_days_witness :
    8 ≤ 8 ∧ 8 ≤ 30 ∧
    main_entries "hair" "Austin" 8 (fun _ => none) =
      (List.range' 1 8).map
        (fun day => parse_calendar_entry "hair" "Austin" day
          (template_post "hair" "Austin" day)) :=
  ⟨by decide, by decide,
    c10_no_ai_above_seven_days "hair" "Austin" 8 (fun _ => none)
      (by decide) (by decide)⟩

end Bella
